import Mathlib

/-!
# CmCt — verification of the IMBIE / mascon comparison pipeline

Shallow embedding, over `ℚ` and `Option ℚ` (for NaN-able floats), of the two
source files of the repository:

* `src/bin/IMBIE/imbie_utils.py` — calendar handling (`days_in_year`),
  date-range validation (`check_datarange`), the per-time-step model
  aggregation of `process_model_data` (interpolation, NaN fill, area/density
  scaling, spatial join, basin/region sums), the observation differencer
  `sum_MassBalance` and the reconciler `process_IMBIE`;
* `src/notebooks/Gravimetry/mascons.py` — the mascon bounding boxes computed
  in `GSFCmascons.__init__` and in `points_to_mascons`, the point-binning
  routine `points_to_mascons`, the date conversion
  `YYYY_MM_DD_to_days_since_Jan_0_2002` and the temporal delta
  `calc_mascon_delta_cmwe`.

Machine floats are modelled by `ℚ`; a float that can be NaN is `Option ℚ`
with `none` for NaN (IEEE NaN propagates through arithmetic, which matches
`Option` strictness in the operations modelled here).  Python exceptions are
`Except String`; a function that prints an error and returns `None` is
`Option`.
-/

namespace CmCt

/-! ## Calendar handling (`imbie_utils.py`, lines 15–28) -/

/-- A `cftime` timestamp as far as `days_in_year` inspects it: its year, its
day of year and the calendar identifier attached to it. -/
structure CFDate where
  year : Int
  dayofyr : Nat
  calendar : String
deriving DecidableEq

/-- `cftime.is_leap_year` for the calendar identifiers that can reach it from
`days_in_year` (the `365_day`/`noleap`/`366_day`/`all_leap`/`360_day` cases
are matched earlier there).  Modelled on `cftime._is_leap`: Julian years
before 1582 and Gregorian years after for the `standard`/`gregorian`
calendars, pure Gregorian for `proleptic_gregorian`, pure Julian for
`julian`; years < 0 are shifted by one because year zero does not exist. -/
def cftime_is_leap_year (year : Int) (calendar : String) : Bool :=
  let tyear : Int := if year < 0 then year + 1 else year
  if calendar = "proleptic_gregorian"
      ∨ ((calendar = "standard" ∨ calendar = "gregorian") ∧ year > 1581) then
    tyear % 4 == 0 && (tyear % 100 != 0 || tyear % 400 == 0)
  else if calendar = "julian"
      ∨ ((calendar = "standard" ∨ calendar = "gregorian") ∧ year < 1582) then
    tyear % 4 == 0
  else if calendar = "366_day" ∨ calendar = "all_leap" then
    true
  else
    false

/-- `days_in_year` (`imbie_utils.py` lines 15–28): days in the year of `date`
under the calendar carried by `date`. -/
def days_in_year (date : CFDate) : Nat :=
  if date.calendar = "365_day" ∨ date.calendar = "noleap" then 365
  else if date.calendar = "366_day" ∨ date.calendar = "all_leap" then 366
  else if date.calendar = "360_day" then 360
  else if cftime_is_leap_year date.year date.calendar then 366
  else 365

/-! ## Date-range validation (`imbie_utils.py`, lines 33–45) -/

/-- `check_datarange` (`imbie_utils.py` lines 33–45) on a non-empty time
coordinate `t :: ts`: succeeds when both selected dates lie inside the
closed interval of the coordinate's minimum and maximum, raises `ValueError`
otherwise.  Times and dates are the comparable values of the native time
coordinate, modelled as `ℚ`. -/
def check_datarange (times : List ℚ) (start_date end_date : ℚ) :
    Except String Unit :=
  match times with
  | [] => .error "empty time coordinate"
  | t :: ts =>
    let min_time := ts.foldl min t
    let max_time := ts.foldl max t
    if min_time ≤ start_date ∧ start_date ≤ max_time
        ∧ min_time ≤ end_date ∧ end_date ≤ max_time then
      .ok ()
    else
      .error "Error: the selected dates are out of range"

/-! ## Observation series differencer (`imbie_utils.py`, lines 162–213) -/

/-- One row of the observation CSV as `sum_MassBalance` reads it: the
fractional-year `Year` column and the configured mass-balance column. -/
structure ObsRow where
  year : ℚ
  mass : ℚ
deriving DecidableEq

/-- Insert a row into a list already sorted by ascending `Year`. -/
def insertByYear (r : ObsRow) : List ObsRow → List ObsRow
  | [] => [r]
  | x :: xs => if r.year ≤ x.year then r :: x :: xs else x :: insertByYear r xs

/-- `mass_balance_data.sort_values(by=Year)` — sort the rows by ascending
fractional year (insertion sort; the source's sort algorithm is not
specified beyond producing ascending `Year` order). -/
def sortByYear (rows : List ObsRow) : List ObsRow :=
  rows.foldr insertByYear []

/-- `sum_MassBalance` (`imbie_utils.py` lines 162–213).  Sorts the rows by
`Year`, requires an exact row for the start date (`ValueError` otherwise),
filters to `start < Year ≤ end`, and runs the source's loop: it seeds
`previous_mass_balance` with the start-date value and, for each filtered row,
appends `current - previous_mass_balance` — the loop body never reassigns
`previous_mass_balance`, exactly as in the source.  Returns each filtered row
paired with its `IMBIE_Mass_Change` value. -/
def sum_MassBalance (rows : List ObsRow) (start_date_fract end_date_fract : ℚ) :
    Except String (List (ObsRow × ℚ)) :=
  let sorted := sortByYear rows
  match sorted.find? (fun r => decide (r.year = start_date_fract)) with
  | none => .error "Error: no data available for the start date"
  | some data_start_row =>
    let mass_balance_start_value := data_start_row.mass
    let filtered_data := sorted.filter
      (fun r => decide (start_date_fract < r.year ∧ r.year ≤ end_date_fract))
    let loopState := filtered_data.foldl
      (fun (st : List ℚ × ℚ) row =>
        let previous_mass_balance := st.2
        let mass_change := row.mass - previous_mass_balance
        (st.1 ++ [mass_change], previous_mass_balance))
      ([], mass_balance_start_value)
    .ok (filtered_data.zip loopState.1)

end CmCt

namespace CmCt

/-! ## Theorems for the calendar and range claims -/

/-- C9: `days_in_year` returns 365 for every date on a no-leap/365-day
calendar, 366 on an all-leap/366-day calendar, 360 on a 360-day calendar,
and otherwise 366 exactly when the date's year is a leap year under the
calendar's leap rule (`cftime.is_leap_year`) and 365 otherwise. -/
theorem days_in_year_cases (d : CFDate) :
    ((d.calendar = "365_day" ∨ d.calendar = "noleap") → days_in_year d = 365)
    ∧ ((d.calendar = "366_day" ∨ d.calendar = "all_leap") → days_in_year d = 366)
    ∧ (d.calendar = "360_day" → days_in_year d = 360)
    ∧ (d.calendar ∉ ["365_day", "noleap", "366_day", "all_leap", "360_day"] →
        days_in_year d = if cftime_is_leap_year d.year d.calendar then 366 else 365) := by
  refine ⟨fun h => ?_, fun h => ?_, fun h => ?_, fun h => ?_⟩
  · simp [days_in_year, h]
  · have h365 : ¬ (d.calendar = "365_day" ∨ d.calendar = "noleap") := by
      rcases h with h | h <;> simp [h]
    simp [days_in_year, h365, h]
  · have h365 : ¬ (d.calendar = "365_day" ∨ d.calendar = "noleap") := by simp [h]
    have h366 : ¬ (d.calendar = "366_day" ∨ d.calendar = "all_leap") := by simp [h]
    simp [days_in_year, h365, h366, h]
  · simp only [List.mem_cons, List.not_mem_nil, or_false, not_or] at h
    obtain ⟨h1, h2, h3, h4, h5⟩ := h
    simp [days_in_year, h1, h2, h3, h4, h5]

/-- The running minimum of `check_datarange` is below its initial value. -/
theorem foldl_min_le_init (ts : List ℚ) (t : ℚ) : ts.foldl min t ≤ t := by
  induction ts generalizing t with
  | nil => exact le_refl t
  | cons a ts ih => exact le_trans (ih (min t a)) (min_le_left t a)

/-- The running maximum of `check_datarange` is above its initial value. -/
theorem le_foldl_max_init (ts : List ℚ) (t : ℚ) : t ≤ ts.foldl max t := by
  induction ts generalizing t with
  | nil => exact le_refl t
  | cons a ts ih => exact le_trans (le_max_left t a) (ih (max t a))

/-- C3: `check_datarange` raises exactly when the start date or the end date
lies outside the closed interval of the minimum and maximum of the (non-empty)
native time coordinate; in particular it does not raise when the endpoints
equal the boundary values exactly. -/
theorem check_datarange_raises_iff (t : ℚ) (ts : List ℚ) (s e : ℚ) :
    ((∃ msg, check_datarange (t :: ts) s e = .error msg) ↔
      (s < ts.foldl min t ∨ ts.foldl max t < s
        ∨ e < ts.foldl min t ∨ ts.foldl max t < e))
    ∧ check_datarange (t :: ts) (ts.foldl min t) (ts.foldl max t) = .ok () := by
  have hdef : ∀ s e : ℚ, check_datarange (t :: ts) s e =
      if ts.foldl min t ≤ s ∧ s ≤ ts.foldl max t
          ∧ ts.foldl min t ≤ e ∧ e ≤ ts.foldl max t then
        Except.ok ()
      else Except.error "Error: the selected dates are out of range" :=
    fun _ _ => rfl
  constructor
  · rw [hdef]
    by_cases hc : ts.foldl min t ≤ s ∧ s ≤ ts.foldl max t
        ∧ ts.foldl min t ≤ e ∧ e ≤ ts.foldl max t
    · rw [if_pos hc]
      constructor
      · rintro ⟨msg, h⟩
        exact Except.noConfusion h
      · intro h
        exfalso
        obtain ⟨h1, h2, h3, h4⟩ := hc
        rcases h with h | h | h | h <;> linarith
    · rw [if_neg hc]
      constructor
      · intro _
        by_cases h1 : ts.foldl min t ≤ s
        · by_cases h2 : s ≤ ts.foldl max t
          · by_cases h3 : ts.foldl min t ≤ e
            · by_cases h4 : e ≤ ts.foldl max t
              · exact absurd ⟨h1, h2, h3, h4⟩ hc
              · exact Or.inr (Or.inr (Or.inr (lt_of_not_le h4)))
            · exact Or.inr (Or.inr (Or.inl (lt_of_not_le h3)))
          · exact Or.inr (Or.inl (lt_of_not_le h2))
        · exact Or.inl (lt_of_not_le h1)
      · intro _
        exact ⟨_, rfl⟩
  · rw [hdef]
    have hminmax : ts.foldl min t ≤ ts.foldl max t :=
      le_trans (foldl_min_le_init ts t) (le_foldl_max_init ts t)
    rw [if_pos ⟨le_refl _, hminmax, hminmax, le_refl _⟩]

end CmCt

namespace CmCt

/-! ## Theorem for the observation differencer claim -/

/-- C1 (failing input): on the observation series `(2000.0, 100)`,
`(2001.0, 90)`, `(2002.0, 70)` with `start_date = 2000.0` and
`end_date = 2002.0`, the source's loop produces the deltas `[-10, -30]`:
because `previous_mass_balance` is never reassigned inside the loop, every
delta is taken against the start-date value, so the second delta is
`70 - 100 = -30` and not the successive difference `70 - 90 = -20` that the
claim (and the source's own comments) state. -/
theorem sum_MassBalance_eval :
    sum_MassBalance [⟨2000, 100⟩, ⟨2001, 90⟩, ⟨2002, 70⟩] 2000 2002 =
      .ok [(⟨2001, 90⟩, -10), (⟨2002, 70⟩, -30)] := by
  norm_num [sum_MassBalance, sortByYear, insertByYear]

end CmCt

namespace CmCt

/-! ## Gravimetry mascons (`mascons.py`) -/

/-- A calendar date as parsed by `datetime.strptime(date_str, percent-Y-m-d)`. -/
structure Date where
  y : Nat
  m : Nat
  d : Nat
deriving DecidableEq

/-- Julian day number of a (proleptic) Gregorian calendar date, by the
standard arithmetic formula; agrees with Python's `datetime`/`cftime`
day arithmetic for the modern dates this pipeline handles. -/
def jdn (dt : Date) : Int :=
  let a : Int := (14 - (dt.m : Int)) / 12
  let y : Int := (dt.y : Int) + 4800 - a
  let m : Int := (dt.m : Int) + 12 * a - 3
  (dt.d : Int) + (153 * m + 2) / 5 + 365 * y + y / 4 - y / 100 + y / 400 - 32045

/-- `YYYY_MM_DD_to_days_since_Jan_0_2002` (`mascons.py` lines 139–141):
`cftime.date2num(date, "days since 2001-12-31")`, i.e. the signed number of
days from 2001-12-31 to the date (so 2002-01-01 maps to 1). -/
def YYYY_MM_DD_to_days_since_Jan_0_2002 (dt : Date) : Int :=
  jdn dt - jdn ⟨2001, 12, 31⟩

/-- The conversion the claim describes: days since the 2002-01-01 epoch
(so 2002-01-01 maps to 0).  Stated from the claim's words, for comparison
with `YYYY_MM_DD_to_days_since_Jan_0_2002`. -/
def claimDaysSince2002_01_01 (dt : Date) : Int :=
  jdn dt - jdn ⟨2002, 1, 1⟩

/-- The fields of a `GSFCmascons` object that the functions under
verification read: per-mascon centers and spans, the `[mascon, time]` matrix
of equivalent water thickness, and the three reference-day vectors. -/
structure GSFCmascons where
  lat_centers : List ℚ
  lat_spans : List ℚ
  lon_centers : List ℚ
  lon_spans : List ℚ
  cmwe : List (List ℚ)
  days_start : List ℚ
  days_middle : List ℚ
  days_end : List ℚ

/-- Value of the linear interpolant through `(x0, y0)` and `(x1, y1)` at `t`. -/
def interpSeg (x0 y0 x1 y1 t : ℚ) : ℚ :=
  y0 + (y1 - y0) * (t - x0) / (x1 - x0)

/-- `scipy.interpolate.interp1d(xs, ys, assume_sorted=True,
bounds_error=False, fill_value="extrapolate")` evaluated at `t`, over the
breakpoint list `pts = xs.zip ys` (at least two points): piecewise-linear
inside the range, and linear extrapolation by the first/last segment
outside it. -/
def interp1 : List (ℚ × ℚ) → ℚ → ℚ
  | [], _ => 0
  | [(_, y)], _ => y
  | (x0, y0) :: (x1, y1) :: rest, t =>
    if t ≤ x1 ∨ rest = [] then interpSeg x0 y0 x1 y1 t
    else interp1 ((x1, y1) :: rest) t

/-- Boolean-mask row selection `cmwe[I_]`: the rows whose mask entry is
true, in their original order. -/
def selectRows (cmwe : List (List ℚ)) (I : List Bool) : List (List ℚ) :=
  ((cmwe.zip I).filter (fun p => p.2)).map (fun p => p.1)

/-- `calc_mascon_delta_cmwe` (`mascons.py` lines 143–184).  Converts the two
date strings to days since 2001-12-31; prints an error and returns `None`
when the start falls before `days_start[0]`, or (elif) when the end falls
after `days_end[-1]`; otherwise interpolates each selected row of `cmwe`
along `days_middle` at both endpoints and returns the differences.  The
`[0]` / `[-1]` accesses are modelled by `headD` / `getLastD` (the reference
day vectors of a loaded solution are non-empty). -/
def calc_mascon_delta_cmwe (mascon : GSFCmascons) (start_date end_date : Date)
    (I : List Bool) : Option (List ℚ) :=
  let t_0 : ℚ := (YYYY_MM_DD_to_days_since_Jan_0_2002 start_date : Int)
  let t_1 : ℚ := (YYYY_MM_DD_to_days_since_Jan_0_2002 end_date : Int)
  if t_0 < mascon.days_start.headD 0 then none
  else if t_1 > mascon.days_end.getLastD 0 then none
  else
    let cmwe_I := selectRows mascon.cmwe I
    let start_cmwe := cmwe_I.map (fun row => interp1 (mascon.days_middle.zip row) t_0)
    let end_cmwe := cmwe_I.map (fun row => interp1 (mascon.days_middle.zip row) t_1)
    some (List.zipWith (fun a b => a - b) end_cmwe start_cmwe)

end CmCt

namespace CmCt

/-! ## Theorems for the mascon delta claims -/

/-- C4 (counterexample): the source converts date strings with
`cftime.date2num(date, "days since 2001-12-31")`, so 2002-01-01 converts to
day 1, not to day 0 as "days since the 2002-01-01 epoch" requires. -/
theorem conversion_epoch_counterexample :
    YYYY_MM_DD_to_days_since_Jan_0_2002 ⟨2002, 1, 1⟩ = 1
    ∧ claimDaysSince2002_01_01 ⟨2002, 1, 1⟩ = 0
    ∧ YYYY_MM_DD_to_days_since_Jan_0_2002 ⟨2002, 1, 1⟩
        ≠ claimDaysSince2002_01_01 ⟨2002, 1, 1⟩ := by
  refine ⟨by decide, by decide, by decide⟩

/-- C4 (amended): `calc_mascon_delta_cmwe` converts its date strings to days
since 2001-12-31 and returns `none` exactly when the converted start precedes
`days_start[0]` or the converted end follows `days_end[-1]`; for every other
input it returns, for each selected row of `cmwe` in original row order, the
linear interpolation of that row at the end date minus the one at the start
date. -/
theorem calc_mascon_delta_cmwe_spec (mascon : GSFCmascons) (s e : Date)
    (I : List Bool) :
    calc_mascon_delta_cmwe mascon s e I =
      if (YYYY_MM_DD_to_days_since_Jan_0_2002 s : ℚ) < mascon.days_start.headD 0
          ∨ (YYYY_MM_DD_to_days_since_Jan_0_2002 e : ℚ) > mascon.days_end.getLastD 0 then
        none
      else
        some ((selectRows mascon.cmwe I).map (fun row =>
          interp1 (mascon.days_middle.zip row) (YYYY_MM_DD_to_days_since_Jan_0_2002 e : ℚ)
            - interp1 (mascon.days_middle.zip row) (YYYY_MM_DD_to_days_since_Jan_0_2002 s : ℚ))) := by
  have hdef : calc_mascon_delta_cmwe mascon s e I =
      (if (YYYY_MM_DD_to_days_since_Jan_0_2002 s : ℚ) < mascon.days_start.headD 0 then
        none
      else if (YYYY_MM_DD_to_days_since_Jan_0_2002 e : ℚ) > mascon.days_end.getLastD 0 then
        none
      else
        some (List.zipWith (fun a b => a - b)
          ((selectRows mascon.cmwe I).map (fun row =>
            interp1 (mascon.days_middle.zip row) (YYYY_MM_DD_to_days_since_Jan_0_2002 e : ℚ)))
          ((selectRows mascon.cmwe I).map (fun row =>
            interp1 (mascon.days_middle.zip row) (YYYY_MM_DD_to_days_since_Jan_0_2002 s : ℚ))))) :=
    rfl
  rw [hdef]
  by_cases h0 : (YYYY_MM_DD_to_days_since_Jan_0_2002 s : ℚ) < mascon.days_start.headD 0
  · rw [if_pos h0, if_pos (Or.inl h0)]
  · by_cases h1 : (YYYY_MM_DD_to_days_since_Jan_0_2002 e : ℚ) > mascon.days_end.getLastD 0
    · rw [if_neg h0, if_pos h1, if_pos (Or.inr h1)]
    · rw [if_neg h0, if_neg h1, if_neg (by tauto)]
      congr 1
      rw [List.zipWith_map, List.zipWith_same]

/-- The number of rows kept by a boolean row mask of matching length is the
number of `true` entries of the mask. -/
theorem selectRows_length (cmwe : List (List ℚ)) (I : List Bool)
    (hlen : I.length = cmwe.length) :
    (selectRows cmwe I).length = I.count true := by
  induction cmwe generalizing I with
  | nil =>
    have : I = [] := List.eq_nil_of_length_eq_zero hlen
    subst this
    rfl
  | cons c cs ih =>
    cases I with
    | nil => exact absurd hlen (by simp)
    | cons b bs =>
      have hlen' : bs.length = cs.length := by simpa using hlen
      cases b with
      | false =>
        simpa [selectRows, List.count_cons] using ih bs hlen'
      | true =>
        simpa [selectRows, List.count_cons] using ih bs hlen'

/-- C5: calling `calc_mascon_delta_cmwe` with equal start and end dates,
both in range, returns a vector of exact zeros whose length is the number of
selected mascons. -/
theorem calc_mascon_delta_cmwe_same_date (mascon : GSFCmascons) (d : Date)
    (I : List Bool) (hlen : I.length = mascon.cmwe.length)
    (h0 : ¬ (YYYY_MM_DD_to_days_since_Jan_0_2002 d : ℚ) < mascon.days_start.headD 0)
    (h1 : ¬ (YYYY_MM_DD_to_days_since_Jan_0_2002 d : ℚ) > mascon.days_end.getLastD 0) :
    calc_mascon_delta_cmwe mascon d d I = some (List.replicate (I.count true) 0) := by
  have hdef : calc_mascon_delta_cmwe mascon d d I =
      (if (YYYY_MM_DD_to_days_since_Jan_0_2002 d : ℚ) < mascon.days_start.headD 0 then
        none
      else if (YYYY_MM_DD_to_days_since_Jan_0_2002 d : ℚ) > mascon.days_end.getLastD 0 then
        none
      else
        some (List.zipWith (fun a b => a - b)
          ((selectRows mascon.cmwe I).map (fun row =>
            interp1 (mascon.days_middle.zip row) (YYYY_MM_DD_to_days_since_Jan_0_2002 d : ℚ)))
          ((selectRows mascon.cmwe I).map (fun row =>
            interp1 (mascon.days_middle.zip row) (YYYY_MM_DD_to_days_since_Jan_0_2002 d : ℚ))))) :=
    rfl
  rw [hdef, if_neg h0, if_neg h1, List.zipWith_map, List.zipWith_same]
  have hzero : (selectRows mascon.cmwe I).map (fun row =>
      interp1 (mascon.days_middle.zip row) (YYYY_MM_DD_to_days_since_Jan_0_2002 d : ℚ)
        - interp1 (mascon.days_middle.zip row) (YYYY_MM_DD_to_days_since_Jan_0_2002 d : ℚ))
      = (selectRows mascon.cmwe I).map (Function.const (List ℚ) (0 : ℚ)) := by
    refine List.map_congr_left (fun row _ => ?_)
    exact sub_self _
  rw [hzero, List.map_const, selectRows_length mascon.cmwe I hlen]

end CmCt

namespace CmCt

/-- C5 (witness): the zero-delta theorem applied to a concrete two-mascon
solution and the in-range date 2002-01-20 (day 20). -/
theorem calc_mascon_delta_cmwe_same_date_witness :
    calc_mascon_delta_cmwe ⟨[], [], [], [], [[1, 2], [3, 4]], [10], [15, 45], [50]⟩
        ⟨2002, 1, 20⟩ ⟨2002, 1, 20⟩ [true, false]
      = some (List.replicate (([true, false] : List Bool).count true) 0) :=
  calc_mascon_delta_cmwe_same_date
    ⟨[], [], [], [], [[1, 2], [3, 4]], [10], [15, 45], [50]⟩
    ⟨2002, 1, 20⟩ [true, false] (by decide) (by decide) (by decide)

end CmCt

namespace CmCt

/-! ## Mascon bounding boxes and point binning (`mascons.py`) -/

/-- The raw latitude bounding interval `(center - span/2, center + span/2)`
that `points_to_mascons` recomputes for every mascon (`mascons.py`
lines 101–102). -/
def ptmLatBounds (c s : ℚ) : ℚ × ℚ :=
  (c - s / 2, c + s / 2)

/-- The per-mascon effect of the pole-clamping masked assignments of
`GSFCmascons.__init__` (`mascons.py` lines 32–37), applied in source order:
first `max_lats[min_lats < -90] = -89.5` and `min_lats[min_lats < -90] = -90`,
then (on the updated `max_lats`) `min_lats[max_lats > 90] = 89.5` and
`max_lats[max_lats > 90] = 90`.  Returns the stored `(min_lats, max_lats)`
pair for a mascon with latitude center `c` and span `s`. -/
def clampedLatBounds (c s : ℚ) : ℚ × ℚ :=
  let min0 := c - s / 2
  let max0 := c + s / 2
  let max1 := if min0 < -90 then (-89.5 : ℚ) else max0
  let min1 := if min0 < -90 then (-90 : ℚ) else min0
  let min2 := if max1 > 90 then (89.5 : ℚ) else min1
  let max2 := if max1 > 90 then (90 : ℚ) else max1
  (min2, max2)

/-- `points_to_mascons` (`mascons.py` lines 77–137).  `I` is the boolean
selection mask, `lats`/`lons`/`values` the scattered samples (`none` for a
NaN value).  The output has `np.sum(I_)` entries, initialised to NaN; the
loop walks the selected mascon indices, recomputes the raw (unclamped)
bounding boxes from centers and spans, applies the four early-exit tests
against the sample extremes, bins the samples with half-open membership
`[min, max)`, drops NaN values, and — when any sample survives — writes the
plain unweighted mean at write-cursor `j`, which advances only on a write
(exactly the source's `j = j + 1` placement).  The latitude-cosine weight of
line 133 is computed but unused in the source and is omitted here. -/
def points_to_mascons (mascons : GSFCmascons) (I : List Bool)
    (lats lons : List ℚ) (values : List (Option ℚ)) : List (Option ℚ) :=
  let N_sel := I.count true
  let latBounds := List.zipWith ptmLatBounds mascons.lat_centers mascons.lat_spans
  let lonBounds := List.zipWith (fun c s => (c - s / 2, c + s / 2))
    mascons.lon_centers mascons.lon_spans
  let latsMin := lats.foldl min (lats.headD 0)
  let latsMax := lats.foldl max (lats.headD 0)
  let lonsMin := lons.foldl min (lons.headD 0)
  let lonsMax := lons.foldl max (lons.headD 0)
  let samples := (lats.zip lons).zip values
  let indices := (List.range mascons.lat_centers.length).filter
    (fun i => I.getD i false)
  let step := fun (st : List (Option ℚ) × Nat) (i : Nat) =>
    let mnLat := (latBounds.getD i (0, 0)).1
    let mxLat := (latBounds.getD i (0, 0)).2
    let mnLon := (lonBounds.getD i (0, 0)).1
    let mxLon := (lonBounds.getD i (0, 0)).2
    if latsMin > mxLat then st
    else if latsMax < mnLat then st
    else if lonsMin > mxLon then st
    else if lonsMax < mnLon then st
    else
      let inBox := samples.filter (fun p =>
        decide (mnLat ≤ p.1.1 ∧ p.1.1 < mxLat ∧ mnLon ≤ p.1.2 ∧ p.1.2 < mxLon))
      let m := (inBox.map (fun p => p.2)).filterMap id
      if m.length = 0 then st
      else (st.1.set st.2 (some (m.sum / m.length)), st.2 + 1)
  (indices.foldl step (List.replicate N_sel none, 0)).1

end CmCt

namespace CmCt

/-! ## Theorems for the point-binning and bounding-box claims -/

/-- C6 (failing input): two selected mascons with latitude boxes `[0, 1)` and
`[10, 11)` (longitude box `[0, 1)` each) and a single sample at
`(lat, lon) = (10.5, 0.5)` with value 7.  The sample lies in the *second*
selected cell's box, yet the source writes its mean at write-cursor position
0 — the cursor `j` advances only on writes — so the output is
`[7, NaN]` instead of the claimed per-cell `[NaN, 7]`. -/
theorem points_to_mascons_eval :
    points_to_mascons ⟨[1/2, 21/2], [1, 1], [1/2, 1/2], [1, 1], [], [], [], []⟩
        [true, true] [21/2] [1/2] [some 7]
      = [some 7, none]
    ∧ ([some 7, none] : List (Option ℚ)) ≠ [none, some 7] := by
  constructor
  · norm_num [points_to_mascons, ptmLatBounds, List.range_succ]
    norm_num [List.filterMap_cons]
    rw [if_neg (by simp)]
    rfl
  · simp

/-- `GSFCmascons.__init__` clamps a below-pole box to `(-90, -89.5)`. -/
theorem clampedLatBounds_of_low (c s : ℚ) (h : c - s / 2 < -90) :
    clampedLatBounds c s = (-90, -89.5) := by
  simp only [clampedLatBounds, if_pos h]
  norm_num

/-- `GSFCmascons.__init__` clamps an above-pole box to `(89.5, 90)`. -/
theorem clampedLatBounds_of_high (c s : ℚ) (h1 : ¬ c - s / 2 < -90)
    (h2 : 90 < c + s / 2) :
    clampedLatBounds c s = (89.5, 90) := by
  simp only [clampedLatBounds, if_neg h1, if_pos h2]

/-- C10: for every mascon whose raw latitude bounds
`center ± span/2` extend below −90 or above 90 degrees, the binning interval
recomputed by `points_to_mascons` differs from the pole-clamped
`(min_lats, max_lats)` interval stored by `GSFCmascons.__init__`. -/
theorem points_to_mascons_bounds_differ (c s : ℚ)
    (h : c - s / 2 < -90 ∨ 90 < c + s / 2) :
    ptmLatBounds c s ≠ clampedLatBounds c s := by
  intro heq
  by_cases hmn : c - s / 2 < -90
  · rw [clampedLatBounds_of_low c s hmn] at heq
    have h1 : c - s / 2 = -90 := congrArg Prod.fst heq
    linarith
  · have hmx : 90 < c + s / 2 := h.resolve_left hmn
    rw [clampedLatBounds_of_high c s hmn hmx] at heq
    have h2 : c + s / 2 = (90 : ℚ) := congrArg Prod.snd heq
    linarith

/-- C10 (witness): a mascon centred at −89 with span 4 has raw bounds
`(-91, -87)`, which the constructor clamps to `(-90, -89.5)`. -/
theorem points_to_mascons_bounds_differ_witness :
    ptmLatBounds (-89) 4 ≠ clampedLatBounds (-89) 4 :=
  points_to_mascons_bounds_differ (-89) 4 (Or.inl (by norm_num))

end CmCt

namespace CmCt

/-! ## Model resampling and basin aggregation (`imbie_utils.py`, lines 52–156) -/

/-- One linear-interpolation segment on NaN-able values: NaN (`none`) as soon
as either endpoint value is NaN, following IEEE float contamination. -/
def interpSegO (y0 y1 : Option ℚ) (x0 x1 t : ℚ) : Option ℚ :=
  match y0, y1 with
  | some a, some b => some (a + (b - a) * (t - x0) / (x1 - x0))
  | _, _ => none

/-- `lithk.interp(time=t)` for one grid cell: xarray linear interpolation of
the cell's time series (`series` pairs each native time with the cell's
value, `none` for NaN).  Outside the native time range the result is NaN
(`fill_value=nan`); inside, the bracketing segment is interpolated, NaN
contaminating. -/
def xr_interp : List (ℚ × Option ℚ) → ℚ → Option ℚ
  | [], _ => none
  | [_], _ => none
  | (x0, y0) :: (x1, y1) :: rest, t =>
    if t < x0 then none
    else if t ≤ x1 then interpSegO y0 y1 x0 x1 t
    else xr_interp ((x1, y1) :: rest) t

/-- The per-grid-cell delta pipeline of `process_model_data`
(`imbie_utils.py` lines 85–100): interpolate the cell at the current time
step and at the start date, subtract, replace NaN by zero
(`lithk_delta[np.isnan(lithk_delta)] = 0`), then scale by
`x_resolution*y_resolution`, by the ice density and by `1e-12`. -/
def lithk_delta_cell (series : List (ℚ × Option ℚ))
    (time_step start_date_fract x_resolution y_resolution rho_ice : ℚ) : ℚ :=
  let lithk_current := xr_interp series time_step
  let lithk_start := xr_interp series start_date_fract
  let lithk_delta : Option ℚ :=
    match lithk_current, lithk_start with
    | some a, some b => some (a - b)
    | _, _ => none
  let filled := lithk_delta.getD 0
  filled * (x_resolution * y_resolution) * rho_ice * (1 / 10 ^ 12)

/-- A grid point as it enters the spatial join: its `(x, y)` geometry and its
already-computed `lithk_delta` value for the current time step. -/
structure GridPt where
  coord : ℚ × ℚ
  delta : ℚ
deriving DecidableEq

/-- A row of the basin shapefile: its `Subregion`/`SUBREGION1` label, its
`Regions` label, and its polygon, abstracted as the decidable set of points
its geometry intersects. -/
structure Basin where
  subregion : String
  region : String
  member : ℚ × ℚ → Bool

/-- `gpd.sjoin(lithk_gdf, basins_gdf, how="inner", predicate="intersects")`:
one joined row per (grid point, basin) pair whose geometries intersect.  A
grid point matching several basin polygons yields several rows. -/
def sjoin (pts : List GridPt) (basins : List Basin) : List (GridPt × Basin) :=
  pts.flatMap (fun p => (basins.filter (fun b => b.member p.coord)).map (fun b => (p, b)))

/-- The grid points of the joined table, with multiplicity. -/
def joinedPoints (pts : List GridPt) (basins : List Basin) : List GridPt :=
  (sjoin pts basins).map (fun pb => pb.1)

/-- `joined_gdf.groupby(subregion_column)['lithk_delta'].sum()`: the distinct
subregion labels of the joined table, each with the sum of the
`lithk_delta` values of its joined rows. -/
def basin_mass_change_sums (pts : List GridPt) (basins : List Basin) :
    List (String × ℚ) :=
  ((sjoin pts basins).map (fun pb => pb.2.subregion)).dedup.map (fun k =>
    (k, (((sjoin pts basins).filter (fun pb => pb.2.subregion = k)).map
      (fun pb => pb.1.delta)).sum))

/-- `model_total_mass_balance_masked = basin_mass_change_sums.sum()`. -/
def model_total_mass_balance_masked (pts : List GridPt) (basins : List Basin) : ℚ :=
  ((basin_mass_change_sums pts basins).map (fun kv => kv.2)).sum

/-- `model_total_mass_balance_unmasked = np.nansum(lithk_delta)` — the deltas
are NaN-free at this point (NaNs were replaced by zero), so this is the sum
over all grid points. -/
def model_total_mass_balance_unmasked (pts : List GridPt) : ℚ :=
  (pts.map (fun p => p.delta)).sum

end CmCt

namespace CmCt

/-! ## Theorems for the model delta and aggregation claims -/

/-- C8: the per-grid-cell mass-change delta at an analysis date equals the
interpolated snapshot difference against the start date, scaled by
`x_resolution * y_resolution * rho_ice * 1e-12`, with a NaN snapshot
difference contributing exactly zero (the NaN is replaced by zero before the
scaling is applied). -/
theorem lithk_delta_cell_spec (series : List (ℚ × Option ℚ))
    (time_step start_date_fract x_resolution y_resolution rho_ice : ℚ) :
    lithk_delta_cell series time_step start_date_fract x_resolution y_resolution rho_ice =
      match xr_interp series time_step, xr_interp series start_date_fract with
      | some a, some b => (a - b) * (x_resolution * y_resolution) * rho_ice * (1 / 10 ^ 12)
      | _, _ => 0 := by
  unfold lithk_delta_cell
  cases h1 : xr_interp series time_step
    <;> cases h2 : xr_interp series start_date_fract
    <;> simp [h1, h2]

/-- Splitting the sum of mapped values of a list along a boolean predicate. -/
theorem sum_map_filter_split {α : Type} (l : List α) (p : α → Bool) (f : α → ℚ) :
    ((l.filter p).map f).sum + ((l.filter (fun x => !p x)).map f).sum
      = (l.map f).sum := by
  induction l with
  | nil => simp
  | cons a l ih =>
    cases h : p a with
    | true =>
      simp only [List.filter_cons, h, Bool.not_true, if_true, if_false,
        Bool.false_eq_true, List.map_cons, List.sum_cons]
      linarith [ih]
    | false =>
      simp only [List.filter_cons, h, Bool.not_false, if_true, if_false,
        Bool.false_eq_true, List.map_cons, List.sum_cons]
      linarith [ih]

/-- Partition identity behind `groupby(...).sum()`: summing the per-key
filtered sums over a duplicate-free key list covering every row gives the
total sum of the rows. -/
theorem sum_fiberwise_by_keys (keys : List String) (l : List (GridPt × Basin))
    (hnd : keys.Nodup) (hcov : ∀ x ∈ l, x.2.subregion ∈ keys) :
    (keys.map (fun k =>
      ((l.filter (fun pb => pb.2.subregion = k)).map (fun pb => pb.1.delta)).sum)).sum
      = (l.map (fun pb => pb.1.delta)).sum := by
  induction keys generalizing l with
  | nil =>
    cases l with
    | nil => simp
    | cons x l => exact absurd (hcov x (List.mem_cons_self x l)) (List.not_mem_nil _)
  | cons k ks ih =>
    obtain ⟨hk, hks⟩ := List.nodup_cons.mp hnd
    have hsplit := sum_map_filter_split l (fun pb => decide (pb.2.subregion = k))
      (fun pb => pb.1.delta)
    have hterm : ∀ j ∈ ks,
        ((l.filter (fun pb => decide (pb.2.subregion = j))).map
          (fun pb => pb.1.delta)).sum
        = (((l.filter (fun pb => !decide (pb.2.subregion = k))).filter
            (fun pb => decide (pb.2.subregion = j))).map (fun pb => pb.1.delta)).sum := by
      intro j hj
      have hjk : j ≠ k := fun heq => hk (heq ▸ hj)
      have hlists : l.filter (fun pb => decide (pb.2.subregion = j))
          = (l.filter (fun pb => !decide (pb.2.subregion = k))).filter
              (fun pb => decide (pb.2.subregion = j)) := by
        rw [List.filter_filter]
        refine List.filter_congr (fun x _ => ?_)
        by_cases hx : x.2.subregion = j
        · have hxk : ¬ x.2.subregion = k := fun hc => hjk (hx ▸ hc)
          simp [hx, hxk, hjk]
        · simp [hx]
      rw [hlists]
    have hcov' : ∀ x ∈ l.filter (fun pb => !decide (pb.2.subregion = k)),
        x.2.subregion ∈ ks := by
      intro x hx
      have hmem := List.mem_of_mem_filter hx
      have hpred := List.of_mem_filter hx
      have hxk : ¬ x.2.subregion = k := by
        simpa using hpred
      have := hcov x hmem
      rcases List.mem_cons.mp this with hcase | hcase
      · exact absurd hcase hxk
      · exact hcase
    have hrest := ih (l.filter (fun pb => !decide (pb.2.subregion = k))) hks hcov'
    simp only [List.map_cons, List.sum_cons]
    rw [List.map_congr_left hterm, hrest]
    linarith [hsplit]

/-- Under a one-basin-per-point hypothesis, every grid point occurs in the
joined table at most as often as in the grid. -/
theorem count_joinedPoints_le (pts : List GridPt) (basins : List Basin)
    (h : ∀ p ∈ pts, (basins.filter (fun b => b.member p.coord)).length ≤ 1)
    (q : GridPt) :
    (joinedPoints pts basins).count q ≤ pts.count q := by
  induction pts with
  | nil => simp [joinedPoints, sjoin]
  | cons p pts ih =>
    have hp := h p (List.mem_cons_self p pts)
    have hrest := fun r hr => h r (List.mem_cons_of_mem p hr)
    have hsj : joinedPoints (p :: pts) basins
        = List.replicate (basins.filter (fun b => b.member p.coord)).length p
            ++ joinedPoints pts basins := by
      simp only [joinedPoints, sjoin, List.flatMap_cons, List.map_append,
        List.map_map]
      congr 1
      rw [show ((fun pb => pb.1) ∘ fun b => ((p : GridPt), b))
            = Function.const Basin p from rfl, List.map_const]
    rw [hsj, List.count_append, List.count_replicate, List.count_cons]
    by_cases hpq : (p == q) = true
    · rw [if_pos hpq, if_pos hpq]
      have := ih hrest
      omega
    · rw [if_neg hpq, if_neg hpq]
      have := ih hrest
      omega

/-- C2 (amended): for every grid and every basin layer — overlapping basin
polygons included — the masked total stored for a time step equals the sum
of the per-basin totals, and it is the sum of the `lithk_delta` values of
the joined rows, one row per (grid point, intersecting basin) pair.  When,
additionally, every grid point intersects at most one basin polygon, the
joined rows form a sub-multiset of the grid points (each grid point
contributes at most once), so the masked total is computed from a subset of
the points entering the unmasked total. -/
theorem masked_total_spec (pts : List GridPt) (basins : List Basin) :
    model_total_mass_balance_masked pts basins
        = ((basin_mass_change_sums pts basins).map (fun kv => kv.2)).sum
    ∧ model_total_mass_balance_masked pts basins
        = ((joinedPoints pts basins).map (fun p => p.delta)).sum
    ∧ ((∀ p ∈ pts, (basins.filter (fun b => b.member p.coord)).length ≤ 1) →
        ∀ q : GridPt, (joinedPoints pts basins).count q ≤ pts.count q) := by
  refine ⟨rfl, ?_, fun h q => count_joinedPoints_le pts basins h q⟩
  unfold model_total_mass_balance_masked basin_mass_change_sums joinedPoints
  rw [List.map_map, List.map_map]
  have hfib := sum_fiberwise_by_keys
    (((sjoin pts basins).map (fun pb => pb.2.subregion)).dedup)
    (sjoin pts basins) (List.nodup_dedup _)
    (fun x hx => List.mem_dedup.mpr (List.mem_map_of_mem _ hx))
  exact hfib

end CmCt

namespace CmCt

/-- C2 (counterexample): one grid point with delta 1 whose geometry
intersects two basin polygons ("A" and "B").  The inner spatial join emits
two rows for the point, so the point enters the masked total twice —
refuting "a strict subset of the grid points ... each grid point
contributing at most once": the masked total is 2 while the unmasked total
over all grid points is 1. -/
theorem masked_subset_counterexample :
    (joinedPoints [⟨(0, 0), 1⟩]
        [⟨"A", "East", fun _ => true⟩, ⟨"B", "East", fun _ => true⟩]).count ⟨(0, 0), 1⟩ = 2
    ∧ List.count (⟨(0, 0), 1⟩ : GridPt) [⟨(0, 0), 1⟩] = 1
    ∧ model_total_mass_balance_masked [⟨(0, 0), 1⟩]
        [⟨"A", "East", fun _ => true⟩, ⟨"B", "East", fun _ => true⟩] = 2
    ∧ model_total_mass_balance_unmasked [⟨(0, 0), 1⟩] = 1 := by
  refine ⟨?_, ?_, ?_, ?_⟩
  · norm_num [joinedPoints, sjoin, List.count_cons]
  · norm_num [List.count_cons]
  · have hd : (["A", "B"] : List String).dedup = ["A", "B"] := by decide
    norm_num [model_total_mass_balance_masked, basin_mass_change_sums, sjoin, hd,
      List.filter_cons, List.filter_nil]
    rw [if_neg (by decide : ¬ ("B" : String) = "A"),
      if_neg (by decide : ¬ ("A" : String) = "B")]
    norm_num
  · norm_num [model_total_mass_balance_unmasked]

/-- C2 (witness): the amended masked-total theorem at a concrete grid of two
points and one basin polygon containing only the first; the concrete layer
satisfies the one-basin-per-point condition of the sub-multiset clause. -/
theorem masked_total_spec_witness :
    (model_total_mass_balance_masked [⟨(0, 0), 1⟩, ⟨(5, 5), 2⟩]
        [⟨"A", "East", fun c => decide (c.1 ≤ 1)⟩]
        = ((basin_mass_change_sums [⟨(0, 0), 1⟩, ⟨(5, 5), 2⟩]
            [⟨"A", "East", fun c => decide (c.1 ≤ 1)⟩]).map (fun kv => kv.2)).sum
    ∧ model_total_mass_balance_masked [⟨(0, 0), 1⟩, ⟨(5, 5), 2⟩]
        [⟨"A", "East", fun c => decide (c.1 ≤ 1)⟩]
        = ((joinedPoints [⟨(0, 0), 1⟩, ⟨(5, 5), 2⟩]
            [⟨"A", "East", fun c => decide (c.1 ≤ 1)⟩]).map (fun p => p.delta)).sum
    ∧ ((∀ p ∈ ([⟨(0, 0), 1⟩, ⟨(5, 5), 2⟩] : List GridPt),
          (([⟨"A", "East", fun c => decide (c.1 ≤ 1)⟩] : List Basin).filter
            (fun b => b.member p.coord)).length ≤ 1) →
        ∀ q : GridPt, (joinedPoints [⟨(0, 0), 1⟩, ⟨(5, 5), 2⟩]
          [⟨"A", "East", fun c => decide (c.1 ≤ 1)⟩]).count q
            ≤ List.count q [⟨(0, 0), 1⟩, ⟨(5, 5), 2⟩]))
    ∧ (∀ p ∈ ([⟨(0, 0), 1⟩, ⟨(5, 5), 2⟩] : List GridPt),
        (([⟨"A", "East", fun c => decide (c.1 ≤ 1)⟩] : List Basin).filter
          (fun b => b.member p.coord)).length ≤ 1) :=
  ⟨masked_total_spec [⟨(0, 0), 1⟩, ⟨(5, 5), 2⟩]
    [⟨"A", "East", fun c => decide (c.1 ≤ 1)⟩], by decide⟩

end CmCt

namespace CmCt

/-! ## Residual reconciler (`imbie_utils.py`, lines 219–312) -/

/-- The per-date record built by `process_model_data` as `process_IMBIE`
reads it: masked and unmasked totals, per-basin sums, and the per-region
sums that are `None` for Greenland. -/
structure MassRecord where
  unmasked : ℚ
  masked : ℚ
  basin_sums : List (String × ℚ)
  region_sums : Option (List (String × ℚ))

/-- One date's entry of `regional_results`: the optional
(IMBIE mass change, residual) pairs for East, West and Peninsula, present
exactly when the corresponding region label occurs in the per-region sums. -/
structure RegionalEntry where
  east : Option (ℚ × ℚ)
  west : Option (ℚ × ℚ)
  peninsula : Option (ℚ × ℚ)

/-- The `results` dictionary returned by `process_IMBIE`: the per-date
(IMBIE mass change, masked residual, unmasked residual) triples, the
optional `Regional_Mass_Change_Summary`, and the
`print_regionalresult_check` flag.  Dates are kept as the fractional-year
values that the source stringifies for its keys. -/
structure IMBIEResult where
  perDate : List (ℚ × ℚ × ℚ × ℚ)
  regional : Option (List (ℚ × RegionalEntry))
  print_regionalresult_check : String

/-- `obs_*_filename and os.path.exists(obs_*_filename)`: the optional
filename is given and the filesystem (`fs`, mapping existing paths to their
parsed rows) has it. -/
def fileAvailable (filename : Option String)
    (fs : String → Option (List ObsRow)) : Bool :=
  match filename with
  | some f => (fs f).isSome
  | none => false

/-- The rows read from an available observation file. -/
def fileContent (filename : Option String)
    (fs : String → Option (List ObsRow)) : List ObsRow :=
  match filename with
  | some f => (fs f).getD []
  | none => []

/-- The main loop of `process_IMBIE` (lines 225–244): for each observation
row whose date is a key of `basin_result`, the (IMBIE mass change,
masked residual, unmasked residual) triple; other dates are skipped with a
diagnostic. -/
def process_IMBIE_perDate (IMBIE_total_mass_change_sum : List (ℚ × ℚ))
    (basin_result : List (ℚ × MassRecord)) : List (ℚ × ℚ × ℚ × ℚ) :=
  IMBIE_total_mass_change_sum.filterMap (fun de =>
    (basin_result.lookup de.1).map (fun record =>
      (de.1, de.2, de.2 - record.masked, de.2 - record.unmasked)))

/-- The regional loop of `process_IMBIE` (lines 263–305) over the zipped
rows of the three regional `sum_MassBalance` outputs: date taken from the
east row; dates missing from `basin_result` are skipped; reading
`region_mass_change_sums` of a record whose per-region sums are `None`
raises (`TypeError`, as `in` on `None` would); each region label found in
the per-region sums contributes its (IMBIE mass change, residual) pair, and
a date with no recognized region contributes no entry. -/
def regionalLoop (basin_result : List (ℚ × MassRecord))
    (rowTriples : List ((ObsRow × ℚ) × (ObsRow × ℚ) × (ObsRow × ℚ))) :
    Except String (List (ℚ × RegionalEntry)) :=
  rowTriples.foldlM
    (fun acc trip =>
      let date := trip.1.1.year
      match basin_result.lookup date with
      | none => Except.ok acc
      | some record =>
        match record.region_sums with
        | none => Except.error "TypeError: argument of type NoneType is not iterable"
        | some region_mass_change_sums =>
          let eastEntry := (region_mass_change_sums.lookup "East").map
            (fun v => (trip.1.2, trip.1.2 - v))
          let westEntry := (region_mass_change_sums.lookup "West").map
            (fun v => (trip.2.1.2, trip.2.1.2 - v))
          let peninsulaEntry := (region_mass_change_sums.lookup "Peninsula").map
            (fun v => (trip.2.2.2, trip.2.2.2 - v))
          if eastEntry.isNone && westEntry.isNone && peninsulaEntry.isNone then
            Except.ok acc
          else
            Except.ok (acc ++ [(date, ⟨eastEntry, westEntry, peninsulaEntry⟩)]))
    []

/-- `process_IMBIE` (`imbie_utils.py` lines 219–312).  Builds the per-date
residuals; then, for the Antarctic ice sheet, when all three regional
observation files are given and exist, runs `sum_MassBalance` on each,
builds the regional summary from the zipped rows and stores it with the
flag `"YES"`; in every other case no regional summary is stored and the
flag stays `"NO"`. -/
def process_IMBIE (IMBIE_total_mass_change_sum : List (ℚ × ℚ))
    (basin_result : List (ℚ × MassRecord)) (icesheet : String)
    (start_date_fract end_date_fract : ℚ)
    (obs_east_filename obs_west_filename obs_peninsula_filename : Option String)
    (fs : String → Option (List ObsRow)) : Except String IMBIEResult :=
  if icesheet = "AIS" ∧ fileAvailable obs_east_filename fs = true
      ∧ fileAvailable obs_west_filename fs = true
      ∧ fileAvailable obs_peninsula_filename fs = true then
    match sum_MassBalance (fileContent obs_east_filename fs) start_date_fract end_date_fract,
      sum_MassBalance (fileContent obs_west_filename fs) start_date_fract end_date_fract,
      sum_MassBalance (fileContent obs_peninsula_filename fs) start_date_fract end_date_fract with
    | .ok eastRows, .ok westRows, .ok peninsulaRows =>
      match regionalLoop basin_result (eastRows.zip (westRows.zip peninsulaRows)) with
      | .ok regional_results =>
        .ok ⟨process_IMBIE_perDate IMBIE_total_mass_change_sum basin_result,
          some regional_results, "YES"⟩
      | .error msg => .error msg
    | .error msg, _, _ => .error msg
    | _, .error msg, _ => .error msg
    | _, _, .error msg => .error msg
  else
    .ok ⟨process_IMBIE_perDate IMBIE_total_mass_change_sum basin_result, none, "NO"⟩

end CmCt

namespace CmCt

/-- C7: for the Antarctic ice sheet, when any of the three regional
observation files is not given or does not exist, `process_IMBIE` returns
the per-date residuals with no regional summary at all (no per-region
residual entry for any date) and the availability flag `"NO"`; and whenever
it returns a result with all three files available, the regional summary is
present and the flag is `"YES"` — so the stored flag is `"YES"` exactly when
all three files exist. -/
theorem process_IMBIE_regional_gate (imbieSum : List (ℚ × ℚ))
    (basin_result : List (ℚ × MassRecord)) (s e : ℚ)
    (fe fw fp : Option String) (fs : String → Option (List ObsRow)) :
    (¬ (fileAvailable fe fs = true ∧ fileAvailable fw fs = true
        ∧ fileAvailable fp fs = true) →
      process_IMBIE imbieSum basin_result "AIS" s e fe fw fp fs =
        Except.ok ⟨process_IMBIE_perDate imbieSum basin_result, none, "NO"⟩)
    ∧ ((fileAvailable fe fs = true ∧ fileAvailable fw fs = true
        ∧ fileAvailable fp fs = true) →
      ∀ r, process_IMBIE imbieSum basin_result "AIS" s e fe fw fp fs = Except.ok r →
        r.regional.isSome = true ∧ r.print_regionalresult_check = "YES") := by
  constructor
  · intro hna
    have hcond : ¬ (("AIS" : String) = "AIS" ∧ fileAvailable fe fs = true
        ∧ fileAvailable fw fs = true ∧ fileAvailable fp fs = true) :=
      fun hc => hna hc.2
    unfold process_IMBIE
    rw [if_neg hcond]
  · intro hav r hr
    unfold process_IMBIE at hr
    rw [if_pos ⟨rfl, hav.1, hav.2.1, hav.2.2⟩] at hr
    split at hr
    · split at hr
      · have h := Except.ok.inj hr
        rw [← h]
        exact ⟨rfl, rfl⟩
      · exact Except.noConfusion hr
    · exact Except.noConfusion hr
    · exact Except.noConfusion hr
    · exact Except.noConfusion hr

end CmCt
